import Mathlib

/-!
Verification of the tabd control plane (src/src/tabd.c) against its
natural-language specification.

The control-plane handlers of the daemon (`on_handle_create_connection`,
`on_handle_cancel`, `on_handle_set_locality`), the PRNG seeding helper
(`seed_rand_data`) and the initialization thread (`init_thread_func`) are
shallowly embedded as pure Lean functions.  Each handler is modelled as a
function from its inputs (session registry contents, request arguments,
environment outcomes such as allocation success) to the ordered list of
observable actions it performs (an `Event` trace) together with its results.
Machine integers are modelled as `Nat` with explicit `% 2 ^ w` where
overflow matters.  The drand48 family used for session-id generation is
embedded from its POSIX definition (the linear congruential generator
X1 = (0x5DEECE66D * X0 + 0xB) mod 2 ^ 48, with `lrand48` returning the high
31 bits of the new state).

Components of the repository that are not part of src/ (the SessionManager,
SessionData and pipeline objects, of which tabd.c only holds declarations
and calls) are modelled from the specification and marked as such in their
doc comments.
-/

set_option maxRecDepth 40000

/-- TSS2_RC_SUCCESS from the TSS2 headers: the success response code 0. -/
def TSS2_RC_SUCCESS : Nat := 0

/-- Modelled from the spec: per-client Session state (session-data.c is not
under src/).  A session carries a 64-bit id, an 8-bit locality defaulting
to 0, an optional pending command, and the two server-side endpoint fds. -/
structure SessionData where
  id : Nat
  locality : Nat
  pending : Option Nat
  recvFd : Nat
  sendFd : Nat
deriving DecidableEq

/-- Modelled from the spec: session_manager_lookup_id returns the Session
with the given id if one is in the registry (session-manager.c is not
under src/; the spec gives lookup_by_id returning session or not_found). -/
def session_manager_lookup_id (manager : List SessionData) (id : Nat) :
    Option SessionData :=
  manager.find? (fun s => s.id == id)

/-- Modelled from the spec: session_manager_insert rejects duplicate ids
(returning a nonzero status and leaving the registry unchanged) and
otherwise appends the session, returning 0 (session-manager.c is not under
src/; the spec gives insert returning ok or duplicate_id). -/
def session_manager_insert (manager : List SessionData) (s : SessionData) :
    Nat × List SessionData :=
  match session_manager_lookup_id manager s.id with
  | some _ => (1, manager)
  | none => (0, manager ++ [s])

/-- Modelled from the spec: session_data_new allocates the two endpoint fds
and a Session with the given id, locality 0 and no pending command
(session-data.c is not under src/). -/
def session_data_new (nextFd id : Nat) : SessionData :=
  ⟨id, 0, none, nextFd, nextFd + 1⟩

/-- Observable actions of the control-plane handlers in tabd.c.  A handler
trace records the init-mutex gate, PRNG draws, registry operations, DBus
replies, wakeup-pipe writes, broker cancellation calls, per-session
locality writes, logging calls and fatal g_error terminations. -/
inductive Event where
  | initBarrierWait
  | prngDraw (value : Nat)
  | registryLookup (id : Nat)
  | registryInsert (id : Nat)
  | replyRC (rc : Nat)
  | replyFdsAndId (id : Nat)
  | wakeupWrite
  | brokerCancel (id : Nat)
  | localityWrite (id : Nat) (loc : Nat)
  | logCall
  | fatalError
deriving DecidableEq

/-- POSIX drand48 state update: X1 = (0x5DEECE66D * X0 + 0xB) mod 2 ^ 48.
This is the generator behind the lrand48_r call in
on_handle_create_connection. -/
def drand48_step (x : Nat) : Nat :=
  (0x5DEECE66D * x + 0xB) % 2 ^ 48

/-- Embedding of lrand48_r: advance the 48-bit state and return the high
31 bits of the new state as the drawn value, together with the new state. -/
def lrand48 (x : Nat) : Nat × Nat :=
  let x1 := drand48_step x
  (x1 / 2 ^ 17, x1)

/-- Embedding of srand48_r: the low 32 bits of the seed become bits 16..47
of the state and the low 16 bits are set to 0x330E. -/
def srand48 (seed : Nat) : Nat :=
  (seed % 2 ^ 32) * 2 ^ 16 + 0x330E

/-- State of the drand48 generator after n draws from state x. -/
def lrand48_iter : Nat → Nat → Nat
  | 0, x => x
  | n + 1, x => lrand48_iter n (lrand48 x).2

/-- Value produced by the (n+1)-th lrand48 draw starting from state x. -/
def lrand48_out (n x : Nat) : Nat :=
  (lrand48 (lrand48_iter n x)).1

/-- Shallow embedding of on_handle_cancel (src/src/tabd.c lines 144-170).
The handler logs, waits on the init mutex, looks the id up in the session
registry; if absent it logs a warning and returns FALSE without replying;
if present it logs and replies TSS2_RC_SUCCESS unconditionally.  The C
body contains no call to any cancellation operation and does not read the
pending command of the session.  Result: the event trace and the gboolean
returned to GDBus. -/
def on_handle_cancel (manager : List SessionData) (id : Nat) :
    List Event × Bool :=
  match session_manager_lookup_id manager id with
  | none =>
      ([Event.logCall, Event.initBarrierWait, Event.registryLookup id,
        Event.logCall], false)
  | some _ =>
      ([Event.logCall, Event.initBarrierWait, Event.registryLookup id,
        Event.logCall, Event.replyRC TSS2_RC_SUCCESS], true)

/-- Shallow embedding of on_handle_set_locality (src/src/tabd.c lines
182-210).  The handler logs, waits on the init mutex, looks the id up; if
absent it logs a warning and returns FALSE without replying; if present it
logs and replies TSS2_RC_SUCCESS.  The C body contains no assignment to
the locality of the session, so the registry is returned unchanged in both
branches.  Result: the event trace, the registry after the call and the
gboolean returned to GDBus. -/
def on_handle_set_locality (manager : List SessionData) (id loc : Nat) :
    List Event × List SessionData × Bool :=
  match session_manager_lookup_id manager id with
  | none =>
      ([Event.logCall, Event.initBarrierWait, Event.registryLookup id,
        Event.logCall], manager, false)
  | some _ =>
      ([Event.logCall, Event.initBarrierWait, Event.registryLookup id,
        Event.logCall, Event.replyRC TSS2_RC_SUCCESS], manager, true)

/-- Result of on_handle_create_connection: the event trace, the PRNG state
after the draw, the registry after the call, whether a fatal g_error
terminated the daemon, and the gboolean returned to GDBus on return. -/
structure CreateConnectionResult where
  events : List Event
  rand_data : Nat
  manager : List SessionData
  fatal : Bool
  returned : Bool
deriving DecidableEq

/-- Shallow embedding of on_handle_create_connection (src/src/tabd.c lines
87-126).  The handler waits on the init mutex, draws an id with lrand48_r,
allocates a SessionData (g_error, terminating the daemon, if allocation
fails), logs, sends the reply carrying the client fds and the id, and only
then inserts the session into the registry (g_error, terminating the
daemon, if insert fails).  No write to the wakeup pipe occurs anywhere in
the body.  `allocOk` models whether session_data_new returns non-NULL and
`nextFd` models the fds the allocation produces. -/
def on_handle_create_connection (rand_data : Nat)
    (manager : List SessionData) (allocOk : Bool) (nextFd : Nat) :
    CreateConnectionResult :=
  let id := (lrand48 rand_data).1
  let rd := (lrand48 rand_data).2
  if allocOk = false then
    ⟨[Event.initBarrierWait, Event.prngDraw id, Event.fatalError],
     rd, manager, true, false⟩
  else
    let ins := session_manager_insert manager (session_data_new nextFd id)
    if ins.1 ≠ 0 then
      ⟨[Event.initBarrierWait, Event.prngDraw id, Event.logCall,
        Event.replyFdsAndId id, Event.registryInsert id, Event.fatalError],
       rd, manager, true, false⟩
    else
      ⟨[Event.initBarrierWait, Event.prngDraw id, Event.logCall,
        Event.replyFdsAndId id, Event.registryInsert id],
       rd, ins.2, false, true⟩

/-- Registry-access events of a handler trace. -/
def isRegistryEvent : Event → Bool
  | Event.registryLookup _ => true
  | Event.registryInsert _ => true
  | _ => false

/-- The handler performs no registry access before its wait on the init
mutex: every event before the first initBarrierWait is not a registry
event. -/
def barrierBeforeRegistry (l : List Event) : Bool :=
  (l.takeWhile (fun e => e != Event.initBarrierWait)).all
    (fun e => !(isRegistryEvent e))

/-- Shallow embedding of seed_rand_data (src/src/tabd.c lines 317-345).
It opens the entropy file, reads a long-int seed from it and seeds the
rand48 state with srand48_r.  On open failure or read failure it logs a
warning and returns 1 without seeding; on success it returns 0 and the
seeded state.  `openOk` and `readOk` model the outcomes of the open and
read system calls, `seed` the entropy read. -/
def seed_rand_data (openOk readOk : Bool) (seed : Nat) : Nat × Option Nat :=
  if openOk = false then (1, none)
  else if readOk = false then (1, none)
  else (0, some (srand48 seed))

/-- Environment outcomes that init_thread_func (src/src/tabd.c) reacts to:
whether the entropy source can be opened and read, the seed it yields,
whether session_manager_new returns non-NULL, the return code of the
TCTI initialization call, and the return values of the three
thread_start calls for the pipeline stages. -/
structure InitEnv where
  entropyOpenOk : Bool
  entropyReadOk : Bool
  entropySeed : Nat
  managerOk : Bool
  tctiRc : Nat
  sourceStartRet : Nat
  tabStartRet : Nat
  sinkStartRet : Nat
deriving DecidableEq

/-- Observable steps of init_thread_func in order.  `fatal` records a
g_error call, which aborts the daemon with a non-zero exit status, so a
trace ending in `fatal` is a terminated daemon.  `barrierOpen` records the
unlock of the init mutex that lets the control-plane handlers proceed. -/
inductive InitEvent where
  | barrierAcquire
  | installSignals
  | seedPrng
  | createManager
  | tctiInit
  | createCommandSource
  | createTab
  | createSink
  | wireSourceToTab
  | wireTabToSink
  | startCommandSource
  | startTab
  | startSink
  | barrierOpen
  | fatal
deriving DecidableEq

/-- Shallow embedding of init_thread_func (src/src/tabd.c lines 363-428).
It locks the init mutex, installs the SIGINT/SIGTERM handlers, seeds the
PRNG (g_error on failure), creates the SessionManager (g_error on NULL),
initializes the TCTI (g_error on non-success rc), constructs the
CommandSource, Tab and ResponseSink, wires source to tab and tab to sink,
starts the three pipeline threads in that order (g_error on any nonzero
return), and finally unlocks the init mutex.  g_error aborts, so nothing
after it appears in the trace. -/
def init_thread_func (env : InitEnv) : List InitEvent :=
  [InitEvent.barrierAcquire, InitEvent.installSignals] ++
  (if (seed_rand_data env.entropyOpenOk env.entropyReadOk
        env.entropySeed).1 ≠ 0 then [InitEvent.fatal]
   else [InitEvent.seedPrng] ++
     (if env.managerOk = false then [InitEvent.fatal]
      else [InitEvent.createManager] ++
        (if env.tctiRc ≠ 0 then [InitEvent.tctiInit, InitEvent.fatal]
         else [InitEvent.tctiInit, InitEvent.createCommandSource,
               InitEvent.createTab, InitEvent.createSink,
               InitEvent.wireSourceToTab, InitEvent.wireTabToSink] ++
           (if env.sourceStartRet ≠ 0 then
              [InitEvent.startCommandSource, InitEvent.fatal]
            else [InitEvent.startCommandSource] ++
              (if env.tabStartRet ≠ 0 then
                 [InitEvent.startTab, InitEvent.fatal]
               else [InitEvent.startTab] ++
                 (if env.sinkStartRet ≠ 0 then
                    [InitEvent.startSink, InitEvent.fatal]
                  else [InitEvent.startSink, InitEvent.barrierOpen]))))))

/-- The successful-initialization condition: entropy opened and read, the
SessionManager allocated, TCTI initialized with rc 0, and all three
pipeline threads started with return 0. -/
def initOk (env : InitEnv) : Prop :=
  env.entropyOpenOk = true ∧ env.entropyReadOk = true ∧
  env.managerOk = true ∧ env.tctiRc = 0 ∧
  env.sourceStartRet = 0 ∧ env.tabStartRet = 0 ∧ env.sinkStartRet = 0

/-- The steps that must all precede the opening of the init barrier:
PRNG seeded, TCTI initialized, the three pipeline stages constructed,
both wirings done, and the three stage threads started. -/
def initPrereqs : List InitEvent :=
  [InitEvent.seedPrng, InitEvent.tctiInit, InitEvent.createCommandSource,
   InitEvent.createTab, InitEvent.createSink, InitEvent.wireSourceToTab,
   InitEvent.wireTabToSink, InitEvent.startCommandSource,
   InitEvent.startTab, InitEvent.startSink]

/-- Calls made by the Unix signal handler and by main_loop_quit in
tabd.c.  `setShutdownFlag` and `selfPipeWrite` are the actions the
specification prescribes for the handler; they appear in no trace of the
embedded code. -/
inductive SigAction where
  | logInfo
  | checkLoopRunning
  | quitMainLoop
  | setShutdownFlag
  | selfPipeWrite
deriving DecidableEq

/-- Shallow embedding of main_loop_quit (src/src/tabd.c lines 274-280): a
g_info call, then, if the loop pointer is non-NULL, a
g_main_loop_is_running check and, if the loop is running, a
g_main_loop_quit call. -/
def main_loop_quit (loopExists loopRunning : Bool) : List SigAction :=
  [SigAction.logInfo] ++
  (if loopExists then
     [SigAction.checkLoopRunning] ++
     (if loopRunning then [SigAction.quitMainLoop] else [])
   else [])

/-- Shallow embedding of signal_handler (src/src/tabd.c lines 302-308),
installed for SIGINT and SIGTERM: a g_info call followed by
main_loop_quit on the global loop pointer. -/
def signal_handler (loopExists loopRunning : Bool) : List SigAction :=
  [SigAction.logInfo] ++ main_loop_quit loopExists loopRunning

/-! Helper lemmas shared by the claim theorems. -/

/-- Every value returned by lrand48 is below 2 ^ 31: the new 48-bit state
is shifted right by 17 bits, leaving 31 bits. -/
theorem lrand48_fst_lt (x : Nat) : (lrand48 x).1 < 2 ^ 31 := by
  have h : drand48_step x < 2 ^ 48 := Nat.mod_lt _ (by norm_num)
  have h2 : drand48_step x / 2 ^ 17 < 2 ^ 31 := by
    apply Nat.div_lt_of_lt_mul
    calc drand48_step x < 2 ^ 48 := h
    _ = 2 ^ 17 * 2 ^ 31 := by norm_num
  simpa [lrand48] using h2

/-- Iterating the generator splits over addition of step counts. -/
theorem lrand48_iter_add (n m x : Nat) :
    lrand48_iter (n + m) x = lrand48_iter m (lrand48_iter n x) := by
  induction n generalizing x with
  | zero => simp [lrand48_iter]
  | succ k ih =>
      have h : k + 1 + m = (k + m) + 1 := by omega
      rw [h, lrand48_iter, lrand48_iter, ih]

/-- The cancel handler performs no registry access before its wait on the
init mutex. -/
theorem barrier_first_cancel (m : List SessionData) (id : Nat) :
    barrierBeforeRegistry (on_handle_cancel m id).1 = true := by
  cases h : session_manager_lookup_id m id <;>
    simp [on_handle_cancel, h, barrierBeforeRegistry, isRegistryEvent]

/-- The set-locality handler performs no registry access before its wait
on the init mutex. -/
theorem barrier_first_set_locality (m : List SessionData) (id loc : Nat) :
    barrierBeforeRegistry (on_handle_set_locality m id loc).1 = true := by
  cases h : session_manager_lookup_id m id <;>
    simp [on_handle_set_locality, h, barrierBeforeRegistry, isRegistryEvent]

/-- The create-connection handler performs no registry access before its
wait on the init mutex. -/
theorem barrier_first_create (rd fd : Nat) (m : List SessionData)
    (allocOk : Bool) :
    barrierBeforeRegistry
      (on_handle_create_connection rd m allocOk fd).events = true := by
  by_cases ha : allocOk = false
  · simp [on_handle_create_connection, ha, barrierBeforeRegistry]
  · by_cases hi :
      (session_manager_insert m
        (session_data_new fd ((lrand48 rd).1))).1 = 0 <;>
      simp [on_handle_create_connection, ha, hi, barrierBeforeRegistry]

set_option maxHeartbeats 2000000 in
/-- Properties of the init trace: the barrier opens at most once, exactly
once on fully successful initialization, initialization success is forced
whenever the barrier opens, a fatal g_error occurs exactly on failed
initialization and is the last event then, and on success every
prerequisite step precedes the barrier opening. -/
theorem init_trace_props (env : InitEnv) :
    (init_thread_func env).count InitEvent.barrierOpen ≤ 1
    ∧ (initOk env → (init_thread_func env).count InitEvent.barrierOpen = 1)
    ∧ (InitEvent.barrierOpen ∈ init_thread_func env → initOk env)
    ∧ (InitEvent.fatal ∈ init_thread_func env ↔ ¬ initOk env)
    ∧ (¬ initOk env →
        (init_thread_func env).getLast? = some InitEvent.fatal)
    ∧ (initOk env → ∀ e ∈ initPrereqs,
        e ∈ (init_thread_func env).takeWhile
          (fun x => x != InitEvent.barrierOpen)) := by
  obtain ⟨eo, er, es, mo, rc, sr, tr, kr⟩ := env
  cases eo <;> cases er <;> cases mo <;>
    by_cases h1 : rc = 0 <;> by_cases h2 : sr = 0 <;> by_cases h3 : tr = 0 <;>
      by_cases h4 : kr = 0 <;>
        simp [init_thread_func, seed_rand_data, initOk, initPrereqs,
              h1, h2, h3, h4]

/-! Claim theorems. -/

/-- C1: on a Cancel request whose id is present in the session registry
the handler replies TSS2_RC_SUCCESS unconditionally and invokes no broker
cancel operation for the session, so the reply code is not the mapping of
any cancel result.  Shown at the concrete registry holding session 5. -/
theorem cancel_success_reply_without_broker_cancel :
    (on_handle_cancel [⟨5, 0, none, 10, 11⟩] 5).2 = true
    ∧ (on_handle_cancel [⟨5, 0, none, 10, 11⟩] 5).1.contains
        (Event.replyRC TSS2_RC_SUCCESS) = true
    ∧ (on_handle_cancel [⟨5, 0, none, 10, 11⟩] 5).1.contains
        (Event.brokerCancel 5) = false := by decide

/-- C2: on a SetLocality request whose id is present in the registry the
handler replies TSS2_RC_SUCCESS but performs no update of the locality of
the session: the registry after the call still holds locality 0 although
locality 3 was requested.  Shown at the concrete registry holding
session 5. -/
theorem set_locality_replies_success_without_update :
    (on_handle_set_locality [⟨5, 0, none, 10, 11⟩] 5 3).2.2 = true
    ∧ (on_handle_set_locality [⟨5, 0, none, 10, 11⟩] 5 3).1.contains
        (Event.replyRC TSS2_RC_SUCCESS) = true
    ∧ (on_handle_set_locality [⟨5, 0, none, 10, 11⟩] 5 3).1.contains
        (Event.localityWrite 5 3) = false
    ∧ (on_handle_set_locality [⟨5, 0, none, 10, 11⟩] 5 3).2.1 =
        [⟨5, 0, none, 10, 11⟩] := by decide

/-- C3: a successful CreateConnection (session allocated and inserted:
the registry gains the new session) performs no write to the wakeup pipe
of the CommandSource; its full event trace is barrier wait, PRNG draw,
log, reply, insert. -/
theorem create_connection_sends_no_wakeup :
    (on_handle_create_connection 0 [] true 10).fatal = false
    ∧ (on_handle_create_connection 0 [] true 10).manager =
        [⟨0, 0, none, 10, 11⟩]
    ∧ (on_handle_create_connection 0 [] true 10).events =
        [Event.initBarrierWait, Event.prngDraw 0, Event.logCall,
         Event.replyFdsAndId 0, Event.registryInsert 0]
    ∧ (on_handle_create_connection 0 [] true 10).events.contains
        Event.wakeupWrite = false := by decide

/-- C4: a Cancel request on an existing session with no outstanding
command replies TSS2_RC_SUCCESS (0), not an error code; the result of the
handler does not depend on the pending command of the session at all. -/
theorem cancel_ignores_pending_and_replies_success :
    (on_handle_cancel [⟨7, 0, none, 10, 11⟩] 7).1.contains
        (Event.replyRC TSS2_RC_SUCCESS) = true
    ∧ TSS2_RC_SUCCESS = 0
    ∧ on_handle_cancel [⟨7, 0, none, 10, 11⟩] 7 =
        on_handle_cancel [⟨7, 0, some 99, 10, 11⟩] 7 := by decide

/-- C5 counterexample: a CreateConnection request whose session allocation
fails terminates the daemon through g_error; no reply of any kind is sent
to the client, refuting the claim that control-plane failures are answered
with an error code without daemon termination. -/
theorem create_connection_alloc_failure_terminates :
    (on_handle_create_connection 0 [] false 10).fatal = true
    ∧ (on_handle_create_connection 0 [] false 10).events =
        [Event.initBarrierWait, Event.prngDraw 0, Event.fatalError] := by
  decide

/-- C5 amended: the Cancel and SetLocality handlers never terminate the
daemon, but the CreateConnection handler terminates the daemon via
g_error exactly when session allocation fails or the registry insert
fails, instead of replying with an error code. -/
theorem control_plane_fatal_on_create_failures (m : List SessionData)
    (id loc rd fd : Nat) (allocOk : Bool) :
    (on_handle_cancel m id).1.contains Event.fatalError = false
    ∧ (on_handle_set_locality m id loc).1.contains Event.fatalError = false
    ∧ ((on_handle_create_connection rd m allocOk fd).fatal = true ↔
        (allocOk = false ∨
         (session_manager_insert m
           (session_data_new fd ((lrand48 rd).1))).1 ≠ 0)) := by
  refine ⟨?_, ?_, ?_⟩
  · cases h : session_manager_lookup_id m id <;>
      simp [on_handle_cancel, h]
  · cases h : session_manager_lookup_id m id <;>
      simp [on_handle_set_locality, h]
  · by_cases ha : allocOk = false
    · simp [on_handle_create_connection, ha]
    · by_cases hi :
        (session_manager_insert m
          (session_data_new fd ((lrand48 rd).1))).1 = 0 <;>
        simp [on_handle_create_connection, ha, hi]

/-- C5 amended, witness at concrete inputs. -/
theorem control_plane_fatal_on_create_failures_witness :
    (on_handle_cancel [] 3).1.contains Event.fatalError = false
    ∧ (on_handle_set_locality [] 3 1).1.contains Event.fatalError = false
    ∧ ((on_handle_create_connection 0 [] true 10).fatal = true ↔
        (true = false ∨
         (session_manager_insert []
           (session_data_new 10 ((lrand48 0).1))).1 ≠ 0)) :=
  control_plane_fatal_on_create_failures [] 3 1 0 10 true

/-- C6 counterexample: the id generator does not range over the full
64-bit space (the value 2 ^ 31, a valid u64, is produced by no PRNG
state), and ids repeat within a daemon lifetime: from the concrete seed
1507 the 341st and the 1208th draws both produce the id 977520652. -/
theorem session_id_not_full_u64_and_repeats :
    (¬ ∀ y, y < 2 ^ 64 → ∃ x, (lrand48 x).1 = y)
    ∧ lrand48_out 340 (srand48 1507) = lrand48_out 1207 (srand48 1507)
    ∧ lrand48_out 340 (srand48 1507) = 977520652 := by
  refine ⟨?_, ?_, ?_⟩
  · intro h
    obtain ⟨x, hx⟩ := h (2 ^ 31) (by norm_num)
    have hlt := lrand48_fst_lt x
    omega
  · have hs : srand48 1507 = 98775822 := by decide
    have h340 : lrand48_iter 340 98775822 = 3917007188546 := by decide
    have a1 : lrand48_iter 200 98775822 = 29638713797078 := by decide
    have a2 : lrand48_iter 200 29638713797078 = 188591198226846 := by decide
    have a3 : lrand48_iter 200 188591198226846 = 204127956038246 := by
      decide
    have a4 : lrand48_iter 200 204127956038246 = 155612608431150 := by
      decide
    have a5 : lrand48_iter 200 155612608431150 = 141904231112438 := by
      decide
    have a6 : lrand48_iter 200 141904231112438 = 103750197338814 := by
      decide
    have a7 : lrand48_iter 7 103750197338814 = 196787960419527 := by decide
    have b400 : lrand48_iter 400 98775822 = 188591198226846 := by
      rw [show (400 : Nat) = 200 + 200 from by norm_num, lrand48_iter_add,
          a1, a2]
    have b600 : lrand48_iter 600 98775822 = 204127956038246 := by
      rw [show (600 : Nat) = 400 + 200 from by norm_num, lrand48_iter_add,
          b400, a3]
    have b800 : lrand48_iter 800 98775822 = 155612608431150 := by
      rw [show (800 : Nat) = 600 + 200 from by norm_num, lrand48_iter_add,
          b600, a4]
    have b1000 : lrand48_iter 1000 98775822 = 141904231112438 := by
      rw [show (1000 : Nat) = 800 + 200 from by norm_num, lrand48_iter_add,
          b800, a5]
    have b1200 : lrand48_iter 1200 98775822 = 103750197338814 := by
      rw [show (1200 : Nat) = 1000 + 200 from by norm_num,
          lrand48_iter_add, b1000, a6]
    have h1207 : lrand48_iter 1207 98775822 = 196787960419527 := by
      rw [show (1207 : Nat) = 1200 + 7 from by norm_num, lrand48_iter_add,
          b1200, a7]
    unfold lrand48_out
    rw [hs, h340, h1207]
    decide
  · have hs : srand48 1507 = 98775822 := by decide
    have h340 : lrand48_iter 340 98775822 = 3917007188546 := by decide
    unfold lrand48_out
    rw [hs, h340]
    decide

/-- C6 amended: every session id produced by CreateConnection is the next
output of the seeded drand48 generator, and it lies below 2 ^ 31: only
the low 31 bits of the 64-bit id field vary, and (per the counterexample)
ids are not guaranteed distinct within the lifetime of the daemon. -/
theorem create_connection_id_prng_31bit (rd fd : Nat)
    (m : List SessionData) (allocOk : Bool) :
    Event.prngDraw ((lrand48 rd).1) ∈
        (on_handle_create_connection rd m allocOk fd).events
    ∧ (lrand48 rd).1 < 2 ^ 31
    ∧ (on_handle_create_connection rd m allocOk fd).rand_data =
        (lrand48 rd).2 := by
  refine ⟨?_, lrand48_fst_lt rd, ?_⟩
  · by_cases ha : allocOk = false
    · simp [on_handle_create_connection, ha]
    · by_cases hi :
        (session_manager_insert m
          (session_data_new fd ((lrand48 rd).1))).1 = 0 <;>
        simp [on_handle_create_connection, ha, hi]
  · by_cases ha : allocOk = false
    · simp [on_handle_create_connection, ha]
    · by_cases hi :
        (session_manager_insert m
          (session_data_new fd ((lrand48 rd).1))).1 = 0 <;>
        simp [on_handle_create_connection, ha, hi]

/-- C6 amended, witness at concrete inputs. -/
theorem create_connection_id_prng_31bit_witness :
    Event.prngDraw ((lrand48 7).1) ∈
        (on_handle_create_connection 7 [] true 10).events
    ∧ (lrand48 7).1 < 2 ^ 31
    ∧ (on_handle_create_connection 7 [] true 10).rand_data =
        (lrand48 7).2 :=
  create_connection_id_prng_31bit 7 10 [] true

/-- C7: every control-plane handler waits on the init barrier before its
first registry access, and in the init thread the barrier opens at most
once, exactly once on successful initialization, and only after the PRNG
is seeded, the TCTI is initialized, and all three pipeline stages are
constructed, wired and started. -/
theorem init_barrier_opens_once_and_handlers_wait (env : InitEnv)
    (m : List SessionData) (id loc rd fd : Nat) (allocOk : Bool) :
    (init_thread_func env).count InitEvent.barrierOpen ≤ 1
    ∧ (initOk env →
        (init_thread_func env).count InitEvent.barrierOpen = 1)
    ∧ (InitEvent.barrierOpen ∈ init_thread_func env →
        ∀ e ∈ initPrereqs,
          e ∈ (init_thread_func env).takeWhile
            (fun x => x != InitEvent.barrierOpen))
    ∧ barrierBeforeRegistry (on_handle_cancel m id).1 = true
    ∧ barrierBeforeRegistry (on_handle_set_locality m id loc).1 = true
    ∧ barrierBeforeRegistry
        (on_handle_create_connection rd m allocOk fd).events = true := by
  obtain ⟨hle, honce, hok, _, _, hpre⟩ := init_trace_props env
  exact ⟨hle, honce, fun hmem => hpre (hok hmem),
         barrier_first_cancel m id, barrier_first_set_locality m id loc,
         barrier_first_create rd fd m allocOk⟩

/-- C7, witness at concrete inputs (a fully successful environment). -/
theorem init_barrier_opens_once_and_handlers_wait_witness :
    (init_thread_func ⟨true, true, 4, true, 0, 0, 0, 0⟩).count
        InitEvent.barrierOpen ≤ 1
    ∧ (initOk ⟨true, true, 4, true, 0, 0, 0, 0⟩ →
        (init_thread_func ⟨true, true, 4, true, 0, 0, 0, 0⟩).count
          InitEvent.barrierOpen = 1)
    ∧ (InitEvent.barrierOpen ∈
          init_thread_func ⟨true, true, 4, true, 0, 0, 0, 0⟩ →
        ∀ e ∈ initPrereqs,
          e ∈ (init_thread_func ⟨true, true, 4, true, 0, 0, 0, 0⟩).takeWhile
            (fun x => x != InitEvent.barrierOpen))
    ∧ barrierBeforeRegistry (on_handle_cancel [] 3).1 = true
    ∧ barrierBeforeRegistry (on_handle_set_locality [] 3 1).1 = true
    ∧ barrierBeforeRegistry
        (on_handle_create_connection 0 [] true 10).events = true :=
  init_barrier_opens_once_and_handlers_wait
    ⟨true, true, 4, true, 0, 0, 0, 0⟩ [] 3 1 0 10 true

/-- C8: if the entropy source cannot be opened or read, or TCTI
initialization returns a non-success code, or starting any of the three
pipeline-stage threads fails, then the init thread reaches g_error (which
aborts the daemon with a non-zero exit status); it is the last event of
the trace and the barrier never opens. -/
theorem init_failure_fatal (env : InitEnv)
    (h : env.entropyOpenOk = false ∨ env.entropyReadOk = false ∨
         env.tctiRc ≠ 0 ∨ env.sourceStartRet ≠ 0 ∨
         env.tabStartRet ≠ 0 ∨ env.sinkStartRet ≠ 0) :
    InitEvent.fatal ∈ init_thread_func env
    ∧ (init_thread_func env).getLast? = some InitEvent.fatal
    ∧ InitEvent.barrierOpen ∉ init_thread_func env := by
  obtain ⟨_, _, hok, hfatal, hlast, _⟩ := init_trace_props env
  have hni : ¬ initOk env := by
    rcases h with h | h | h | h | h | h <;> simp [initOk, h]
  exact ⟨hfatal.mpr hni, hlast hni, fun hmem => hni (hok hmem)⟩

/-- C8, witness: entropy source unreadable. -/
theorem init_failure_fatal_witness :
    InitEvent.fatal ∈ init_thread_func ⟨false, true, 4, true, 0, 0, 0, 0⟩
    ∧ (init_thread_func ⟨false, true, 4, true, 0, 0, 0, 0⟩).getLast? =
        some InitEvent.fatal
    ∧ InitEvent.barrierOpen ∉
        init_thread_func ⟨false, true, 4, true, 0, 0, 0, 0⟩ :=
  init_failure_fatal ⟨false, true, 4, true, 0, 0, 0, 0⟩ (Or.inl rfl)

/-- C9 counterexample: the installed SIGINT/SIGTERM handler, run while the
main loop exists and is running, performs a g_info logging call (twice)
and the event-loop calls g_main_loop_is_running and g_main_loop_quit, and
it sets no atomic shutdown flag and writes no self-pipe byte, refuting
the claim that it only records the shutdown request without calling
logging or event-loop functions. -/
theorem signal_handler_calls_logging_and_loop :
    signal_handler true true =
        [SigAction.logInfo, SigAction.logInfo, SigAction.checkLoopRunning,
         SigAction.quitMainLoop]
    ∧ (signal_handler true true).contains SigAction.setShutdownFlag = false
    ∧ (signal_handler true true).contains SigAction.selfPipeWrite =
        false := by decide

/-- C9 amended: the signal handler shuts the daemon down by logging and
quitting the GMainLoop directly: every action it performs is a g_info
call, the g_main_loop_is_running check or the g_main_loop_quit call; it
records no atomic shutdown flag and writes no self-pipe byte, and its
first action is a logging call. -/
theorem signal_handler_actions_logging_and_quit (le lr : Bool) :
    (signal_handler le lr).all
        (fun a => a == SigAction.logInfo ||
          a == SigAction.checkLoopRunning ||
          a == SigAction.quitMainLoop) = true
    ∧ (signal_handler le lr).contains SigAction.setShutdownFlag = false
    ∧ (signal_handler le lr).contains SigAction.selfPipeWrite = false
    ∧ (signal_handler le lr).head? = some SigAction.logInfo := by
  cases le <;> cases lr <;> decide

/-- C9 amended, witness at concrete inputs. -/
theorem signal_handler_actions_logging_and_quit_witness :
    (signal_handler true false).all
        (fun a => a == SigAction.logInfo ||
          a == SigAction.checkLoopRunning ||
          a == SigAction.quitMainLoop) = true
    ∧ (signal_handler true false).contains SigAction.setShutdownFlag =
        false
    ∧ (signal_handler true false).contains SigAction.selfPipeWrite = false
    ∧ (signal_handler true false).head? = some SigAction.logInfo :=
  signal_handler_actions_logging_and_quit true false

/-- C10: in a CreateConnection whose drawn id is fresh, the reply carrying
the fds and the id is emitted strictly before the registry insert (the
reply is in the trace prefix preceding the insert event), and against the
registry as it stands at reply time a Cancel or SetLocality for the new
id returns FALSE after a failed lookup. -/
theorem create_reply_precedes_insert (rd fd : Nat) (m : List SessionData)
    (hfresh : session_manager_lookup_id m ((lrand48 rd).1) = none) :
    Event.registryInsert ((lrand48 rd).1) ∈
        (on_handle_create_connection rd m true fd).events
    ∧ Event.replyFdsAndId ((lrand48 rd).1) ∈
        ((on_handle_create_connection rd m true fd).events.takeWhile
          (fun e => e != Event.registryInsert ((lrand48 rd).1)))
    ∧ (on_handle_cancel m ((lrand48 rd).1)).2 = false
    ∧ (on_handle_set_locality m ((lrand48 rd).1) 0).2.2 = false := by
  have hins :
      session_manager_insert m (session_data_new fd ((lrand48 rd).1)) =
        (0, m ++ [session_data_new fd ((lrand48 rd).1)]) := by
    simp [session_manager_insert, session_data_new, hfresh]
  refine ⟨?_, ?_, ?_, ?_⟩
  · simp [on_handle_create_connection, hins]
  · simp only [on_handle_create_connection, hins]
    exact .tail _ (.tail _ (.tail _ (.head _)))
  · simp [on_handle_cancel, hfresh]
  · simp [on_handle_set_locality, hfresh]

/-- C10, witness at concrete inputs. -/
theorem create_reply_precedes_insert_witness :
    Event.registryInsert ((lrand48 0).1) ∈
        (on_handle_create_connection 0 [] true 10).events
    ∧ Event.replyFdsAndId ((lrand48 0).1) ∈
        ((on_handle_create_connection 0 [] true 10).events.takeWhile
          (fun e => e != Event.registryInsert ((lrand48 0).1)))
    ∧ (on_handle_cancel [] ((lrand48 0).1)).2 = false
    ∧ (on_handle_set_locality [] ((lrand48 0).1) 0).2.2 = false :=
  create_reply_precedes_insert 0 10 [] (by decide)
